import Mathlib

/-!
Shallow embedding of the experiment definition and corpus-selection core of
the crater repository (`src/ex.rs`), together with theorems settling the
specification claims about it. External collaborator modules that are not
part of the provided source (`dirs`, `file`, `git`, `lists`, `util`,
`toolchain`, `crates`, `serde_json`, `rand`, `run`) are modelled from the
spec as explicit parameters or small faithful abstractions; each such
definition carries a doc comment saying so.
-/

namespace Crater

/-- Modelled from the spec: a `Toolchain` is "an identifier … , a capability
flag indicating whether it honors the experiment's compiler-flag override"
(`toolchain.rs` is not part of the provided source; `ex.rs` reads only
equality and the `enable_rustflags` field). -/
structure Toolchain where
  ident : String
  enable_rustflags : Bool
deriving DecidableEq

/-- Modelled from the spec: rendering of a toolchain identifier used to build
per-toolchain directory names (`toolchain.to_string()` in `ex.rs`). -/
def Toolchain.to_string (tc : Toolchain) : String :=
  tc.ident ++ (if tc.enable_rustflags then "+rustflags" else "")

/-- Modelled from the spec: `RegistryPackage{name, version}` (`crates.rs` is
not part of the provided source). -/
structure RegistryCrate where
  name : String
  version : String
deriving DecidableEq

/-- Modelled from the spec: `SourceRepoPackage{organization/name, …}`
(`crates.rs` is not part of the provided source; `ex.rs` uses `url()`,
`slug()` and `mirror_dir()`). -/
structure GitHubRepo where
  org : String
  name : String
deriving DecidableEq

/-- Modelled from the spec: the `org/name` slug of a source-repo package. -/
def GitHubRepo.slug (r : GitHubRepo) : String :=
  r.org ++ "/" ++ r.name

/-- Modelled from the spec: the repository URL of a source-repo package. -/
def GitHubRepo.url (r : GitHubRepo) : String :=
  "https://github.com/" ++ r.slug

/-- Filesystem paths are modelled as lists of components. -/
abbrev FsPath := List String

/-- Modelled from the spec: "Mirror: a local, periodically updated copy of a
source-repo package's version-control history"; one mirror directory per
repository. -/
def GitHubRepo.mirror_dir (r : GitHubRepo) : FsPath :=
  ["work", "local", "gh-mirrors", r.org, r.name]

/-- The two package variants of `crates.rs` as used by `ex.rs`: registry
packages and source-repo (GitHub) packages. -/
inductive Crate where
  | Registry (c : RegistryCrate)
  | GitHub (repo : GitHubRepo)
deriving DecidableEq

/-- Modelled from the spec: `krate.github()` yields the repo of a source-repo
package and nothing for a registry package. -/
def Crate.github : Crate → Option GitHubRepo
  | .GitHub r => some r
  | .Registry _ => none

/-- Modelled from the spec: `krate.id()`, the per-package directory component
("identity for build purposes is `(name, version)` or `(org/name, commit)`"). -/
def Crate.id : Crate → String
  | .Registry c => c.name ++ "-" ++ c.version
  | .GitHub r => r.org ++ "." ++ r.name

/-- `ExMode` from `ex.rs` (`string_enum!`). -/
inductive ExMode where
  | BuildAndTest
  | BuildOnly
  | CheckOnly
  | UnstableFeatures
deriving DecidableEq

/-- `ExCrateSelect` from `ex.rs` (`string_enum!`). -/
inductive ExCrateSelect where
  | Full
  | Demo
  | SmallRandom
  | Top100
deriving DecidableEq

/-- `ExCapLints` from `ex.rs` (`string_enum!`). -/
inductive ExCapLints where
  | Allow
  | Warn
  | Deny
  | Forbid
deriving DecidableEq

/-- The persisted `Experiment` record from `ex.rs`. -/
structure Experiment where
  name : String
  crates : List Crate
  toolchains : List Toolchain
  mode : ExMode
  cap_lints : ExCapLints
  rustflags : Option String
deriving DecidableEq

/-- Error values of the operations of `ex.rs`: a file-not-found read error, a
malformed-record deserialization error, and the descriptive `bail!` messages. -/
inductive ExErr where
  | notFound
  | corrupt
  | msg (s : String)
deriving DecidableEq

/-- Result of a fallible Rust operation: `Ok`, `Err`, or a panic (an
out-of-bounds index or a failed `assert_eq!`). -/
inductive Res (α : Type) where
  | ok (a : α)
  | err (e : ExErr)
  | panic
deriving DecidableEq

/-- `Experiment::validate` from `ex.rs`: indexes `toolchains[0]` and
`toolchains[1]` (panicking when the list is shorter), rejects equal
toolchains, rejects `rustflags` set with no flag-aware toolchain, and rejects
a flag-aware toolchain with no `rustflags`. -/
def Experiment.validate (e : Experiment) : Res Unit :=
  match e.toolchains[0]?, e.toolchains[1]? with
  | some t0, some t1 =>
    if t0 = t1 then
      .err (.msg "reusing the same toolchain isn't supported")
    else if e.rustflags.isSome && !t0.enable_rustflags && !t1.enable_rustflags then
      .err (.msg "rustflags are present but no toolchain is using them")
    else if e.rustflags.isNone && (t0.enable_rustflags || t1.enable_rustflags) then
      .err (.msg "a toolchain is enabling rustflags but none are set")
    else
      .ok ()
  | _, _ => .panic

/-- Modelled from the spec: the `Config` collaborator's demo-corpus
membership lists — exact registry package names plus source-repo URL
suffixes (`config.demo_crates()` in `ex.rs`). -/
structure Config where
  demo_crates : List String
  github_repos : List String

/-- The stateful filter of `demo_list` in `ex.rs`: a registry crate is kept
when `crates.remove(name)` succeeds on the hash set of curated names (so each
curated name matches at most once), a GitHub crate is kept when its URL ends
with any curated repo suffix. -/
def demo_filter (repos : List String) : List Crate → List String → List Crate
  | [], _ => []
  | c :: cs, names =>
    match c with
    | .Registry rc =>
      if rc.name ∈ names then c :: demo_filter repos cs (names.erase rc.name)
      else demo_filter repos cs names
    | .GitHub repo =>
      if repos.any (fun r => repo.url.endsWith r) then c :: demo_filter repos cs names
      else demo_filter repos cs names

/-- `demo_list` from `ex.rs`: builds the hash set of curated names (the
`dedup` models collecting into a `HashSet`), filters the full corpus
(`all_lists` stands for `lists::read_all_lists()`, an external corpus read),
and `assert_eq!`s the result length against the expected count — a mismatch
is a panic. -/
def demo_list (config : Config) (all_lists : List Crate) : Res (List Crate) :=
  let crates := config.demo_crates.dedup
  let expected_len := crates.length + config.github_repos.length
  let result := demo_filter config.github_repos all_lists crates
  if result.length = expected_len then .ok result else .panic

/-- Modelled from the spec: a total order on packages ("Ordering is total
(used to produce deterministic persisted lists)"; the derived `Ord` of
`crates.rs` is not part of the provided source). -/
def crate_key : Crate → String
  | .Registry c => "0:" ++ c.name ++ ":" ++ c.version
  | .GitHub r => "1:" ++ r.org ++ "/" ++ r.name

/-- Boolean comparison used to sort package lists. -/
def crate_le (a b : Crate) : Bool :=
  decide (crate_key a ≤ crate_key b)

/-- `small_random` from `ex.rs`: shuffles the full corpus, truncates to 20
and sorts. The thread-local RNG is external, so the function takes the
post-shuffle list; theorems quantify over every permutation of the corpus. -/
def small_random (shuffled : List Crate) : Res (List Crate) :=
  .ok ((shuffled.take 20).mergeSort crate_le)

/-- The loop of `Experiment::fetch_repo_crates` in `ex.rs`: each repo is
fetched via the `git` collaborator; a failure is reported
(`util::report_error`, modelled as appending to a log) and iteration
continues. -/
def fetch_loop (gitFetch : GitHubRepo → Except String Unit) :
    List GitHubRepo → List String → Except String Unit × List String
  | [], log => (.ok (), log)
  | r :: rs, log =>
    match gitFetch r with
    | .ok _ => fetch_loop gitFetch rs log
    | .error e => fetch_loop gitFetch rs (log ++ [e])

/-- `Experiment::fetch_repo_crates` from `ex.rs`: iterates over the GitHub
packages of the experiment's crate list (`filter_map(|krate| krate.github())`)
and always returns `Ok(())`; the returned list is the error-report log. -/
def Experiment.fetch_repo_crates (ex : Experiment)
    (gitFetch : GitHubRepo → Except String Unit) :
    Except String Unit × List String :=
  fetch_loop gitFetch (ex.crates.filterMap Crate.github) []

/-- Rendering of a path for error messages (`dir.display()`). -/
def path_str (p : FsPath) : String :=
  String.intercalate "/" p

/-- The per-repo part of `capture_shas` in `ex.rs`: runs
`git rev-parse HEAD` in the mirror directory (the subprocess is the
`gitQuery` collaborator, returning the stdout lines), takes the first stdout
line, and bails on invocation failure or on missing/empty output, naming the
directory. -/
def sha_step (gitQuery : FsPath → Except String (List String))
    (repo : GitHubRepo) : Except String String :=
  match gitQuery repo.mirror_dir with
  | .ok stdout =>
    match stdout.head? with
    | some shaline =>
      if shaline.isEmpty then
        .error ("bogus output from git log for " ++ path_str repo.mirror_dir)
      else
        .ok shaline
    | none => .error ("bogus output from git log for " ++ path_str repo.mirror_dir)
  | .error e =>
    .error ("unable to capture sha for " ++ path_str repo.mirror_dir ++ ": " ++ e)

/-- `capture_shas` from `ex.rs`: for every GitHub package, resolve the
mirror's HEAD sha via `sha_step` and record it through the result sink
(`db.record_sha`, the `recordSha` collaborator); a sink failure is wrapped
(`chain_err`) naming the repo slug. Any error aborts the whole loop. The
second component is the trace of `record_sha` invocations. -/
def capture_shas (crates : List Crate)
    (gitQuery : FsPath → Except String (List String))
    (recordSha : GitHubRepo → String → Except String Unit) :
    Except String Unit × List (GitHubRepo × String) :=
  match crates with
  | [] => (.ok (), [])
  | c :: cs =>
    match c with
    | .Registry _ => capture_shas cs gitQuery recordSha
    | .GitHub repo =>
      match sha_step gitQuery repo with
      | .error e => (.error e, [])
      | .ok sha =>
        match recordSha repo sha with
        | .error e =>
          (.error ("failed to record the sha of GitHub repo " ++ repo.slug ++ ": " ++ e),
            [(repo, sha)])
        | .ok _ =>
          let rest := capture_shas cs gitQuery recordSha
          (rest.1, (repo, sha) :: rest.2)

/-- Modelled from the spec: the canonical per-(experiment, toolchain,
package) source directory (`dirs::ex_crate_source`; `dirs.rs` is not part of
the provided source — the spec places canonical source trees under the
experiment root). -/
def ex_crate_source (ex : Experiment) (tc : Toolchain) (krate : Crate) : FsPath :=
  ["work", "experiments", ex.name, "sources", tc.to_string, krate.id]

/-- `crate_work_dir` from `ex.rs`:
`TEST_SOURCE_DIR.join(ex.name).join(toolchain.to_string()).join(krate.id())`
(the `TEST_SOURCE_DIR` root is modelled from the spec as a fixed path
distinct from the canonical-source root). -/
def crate_work_dir (ex : Experiment) (tc : Toolchain) (krate : Crate) : FsPath :=
  ["work", "test-source", ex.name, tc.to_string, krate.id]

/-- The filesystem is modelled as a map from directory paths to the byte
content of the directory tree rooted there (`none` = the directory does not
exist). -/
def Fs : Type := FsPath → Option String

/-- Pointwise update of the filesystem at one directory. -/
def fs_set (fs : Fs) (p : FsPath) (v : Option String) : Fs :=
  fun q => if q = p then v else fs q

/-- `with_work_crate` from `ex.rs`: with `allow_source_changes` the action
runs directly against canonical source and its mutation persists; otherwise
canonical source is copied to the ephemeral work dir (`util::copy_dir`), the
action runs on the copy, and the copy is removed (`util::remove_dir_all`)
before the result — success or failure — is returned. The action is modelled
as a function of the content of the directory it is given, returning a value
and the directory's new content. -/
def with_work_crate {R : Type} (ex : Experiment) (tc : Toolchain) (krate : Crate)
    (allow_source_changes : Bool)
    (f : String → Except String (R × String)) (fs : Fs) :
    Except String R × Fs :=
  let src_dir := ex_crate_source ex tc krate
  if allow_source_changes then
    match fs src_dir with
    | none => (.error "copy failed: no canonical source", fs)
    | some content =>
      match f content with
      | .ok (r, content2) => (.ok r, fs_set fs src_dir (some content2))
      | .error e => (.error e, fs)
  else
    let dest_dir := crate_work_dir ex tc krate
    match fs src_dir with
    | none => (.error "copy failed: no canonical source", fs)
    | some content =>
      let fs1 := fs_set fs dest_dir (some content)
      match f content with
      | .ok (r, _) => (.ok r, fs_set fs1 dest_dir none)
      | .error e => (.error e, fs_set fs1 dest_dir none)

/-- Modelled from the spec: the JSON document tree produced by `serde_json`
(an external crate); `config.json` holds such a document. -/
inductive Json where
  | str (s : String)
  | bool (b : Bool)
  | null
  | arr (xs : List Json)
  | obj (fields : List (String × Json))

/-- Serialization of `ExMode` (`string_enum!` representations from `ex.rs`). -/
def ExMode.to_str : ExMode → String
  | .BuildAndTest => "build-and-test"
  | .BuildOnly => "build-only"
  | .CheckOnly => "check-only"
  | .UnstableFeatures => "unstable-features"

/-- Deserialization of `ExMode` (`string_enum!` representations from `ex.rs`). -/
def ExMode.from_str (s : String) : Option ExMode :=
  if s = "build-and-test" then some .BuildAndTest
  else if s = "build-only" then some .BuildOnly
  else if s = "check-only" then some .CheckOnly
  else if s = "unstable-features" then some .UnstableFeatures
  else none

/-- Serialization of `ExCapLints` (`string_enum!` representations from `ex.rs`). -/
def ExCapLints.to_str : ExCapLints → String
  | .Allow => "allow"
  | .Warn => "warn"
  | .Deny => "deny"
  | .Forbid => "forbid"

/-- Deserialization of `ExCapLints` (`string_enum!` representations from `ex.rs`). -/
def ExCapLints.from_str (s : String) : Option ExCapLints :=
  if s = "allow" then some .Allow
  else if s = "warn" then some .Warn
  else if s = "deny" then some .Deny
  else if s = "forbid" then some .Forbid
  else none

/-- Modelled from the spec: serialization of a toolchain descriptor. -/
def Toolchain.to_json (tc : Toolchain) : Json :=
  .obj [("ident", .str tc.ident), ("enable_rustflags", .bool tc.enable_rustflags)]

/-- Modelled from the spec: deserialization of a toolchain descriptor. -/
def Toolchain.from_json : Json → Option Toolchain
  | .obj fields =>
    match fields.lookup "ident", fields.lookup "enable_rustflags" with
    | some (.str i), some (.bool b) => some ⟨i, b⟩
    | _, _ => none
  | _ => none

/-- Modelled from the spec: externally-tagged serialization of the two
package variants. -/
def Crate.to_json : Crate → Json
  | .Registry c => .obj [("Registry", .obj [("name", .str c.name), ("version", .str c.version)])]
  | .GitHub r => .obj [("GitHub", .obj [("org", .str r.org), ("name", .str r.name)])]

/-- Modelled from the spec: deserialization of the two package variants. -/
def Crate.from_json : Json → Option Crate
  | .obj [("Registry", .obj fields)] =>
    match fields.lookup "name", fields.lookup "version" with
    | some (.str n), some (.str v) => some (.Registry ⟨n, v⟩)
    | _, _ => none
  | .obj [("GitHub", .obj fields)] =>
    match fields.lookup "org", fields.lookup "name" with
    | some (.str o), some (.str n) => some (.GitHub ⟨o, n⟩)
    | _, _ => none
  | _ => none

/-- Decoding of a list of JSON documents, failing when any element fails. -/
def decode_list {α : Type} (f : Json → Option α) : List Json → Option (List α)
  | [] => some []
  | j :: js =>
    match f j, decode_list f js with
    | some a, some as_ => some (a :: as_)
    | _, _ => none

/-- Serialization of an `Option String` (`serde` maps `None` to `null`). -/
def opt_str_to_json : Option String → Json
  | none => .null
  | some s => .str s

/-- Deserialization of an `Option String`. -/
def opt_str_from_json : Json → Option (Option String)
  | .null => some none
  | .str s => some (some s)
  | _ => none

/-- Modelled from the spec: `serde_json::to_string(&ex)` — the serialized
`Experiment` record ("name, package list, toolchains, mode, lint policy,
flag override"), abstracted to its document tree. -/
def Experiment.to_json (ex : Experiment) : Json :=
  .obj
    [("name", .str ex.name),
     ("crates", .arr (ex.crates.map Crate.to_json)),
     ("toolchains", .arr (ex.toolchains.map Toolchain.to_json)),
     ("mode", .str ex.mode.to_str),
     ("cap_lints", .str ex.cap_lints.to_str),
     ("rustflags", opt_str_to_json ex.rustflags)]

/-- Modelled from the spec: `serde_json::from_str` deserialization of an
`Experiment` record. -/
def Experiment.from_json : Json → Option Experiment
  | .obj fields =>
    match fields.lookup "name", fields.lookup "crates", fields.lookup "toolchains",
        fields.lookup "mode", fields.lookup "cap_lints", fields.lookup "rustflags" with
    | some (.str name), some (.arr cjs), some (.arr tjs),
        some (.str ms), some (.str cls), some rf =>
      match decode_list Crate.from_json cjs, decode_list Toolchain.from_json tjs,
          ExMode.from_str ms, ExCapLints.from_str cls, opt_str_from_json rf with
      | some crates, some tcs, some mode, some cap, some rustflags =>
        some ⟨name, crates, tcs, mode, cap, rustflags⟩
      | _, _, _, _, _ => none
    | _, _, _, _, _, _ => none
  | _ => none

/-- Modelled from the spec: the persisted experiment store — "an experiment
root directory keyed by experiment name, containing a serialized Experiment
record" (`config.json`, read and written through the `file` collaborator).
`none` means the experiment directory is absent. -/
def Store : Type := String → Option Json

/-- Pointwise update of the store at one experiment name. -/
def store_set (st : Store) (name : String) (v : Option Json) : Store :=
  fun q => if q = name then v else st q

/-- `define_` from `ex.rs`: builds the record, validates it, and on success
persists the serialized record under the experiment's name (directory
creation and `file::write_string` are modelled as the store update). -/
def define_ (ex_name : String) (toolchains : List Toolchain) (crates : List Crate)
    (mode : ExMode) (cap_lints : ExCapLints) (rustflags : Option String)
    (st : Store) : Res Unit × Store :=
  let ex : Experiment := ⟨ex_name, crates, toolchains, mode, cap_lints, rustflags⟩
  match ex.validate with
  | .ok _ => (.ok (), store_set st ex_name (some ex.to_json))
  | .err e => (.err e, st)
  | .panic => (.panic, st)

/-- `Experiment::load` from `ex.rs`: reads `config.json`
(`file::read_string`, failing with a not-found error when the experiment is
absent) and deserializes it (failing with a corrupt-state error when
malformed). -/
def Experiment.load (ex_name : String) (st : Store) : Res Experiment :=
  match st ex_name with
  | none => .err .notFound
  | some j =>
    match Experiment.from_json j with
    | some ex => .ok ex
    | none => .err .corrupt

/-- `delete` from `ex.rs`: removes the experiment's persisted tree when it
exists (`util::remove_dir_all`), and does nothing when it does not. -/
def delete (ex_name : String) (st : Store) : Res Unit × Store :=
  match st ex_name with
  | some _ => (.ok (), store_set st ex_name none)
  | none => (.ok (), st)

/-- `define` from `ex.rs`: deletes any existing same-named experiment, then
resolves the corpus (`get_crates`, whose outcome is the `crates` parameter —
corpus reads are external) and calls `define_`. -/
def define (ex_name : String) (crates : Res (List Crate)) (toolchains : List Toolchain)
    (mode : ExMode) (cap_lints : ExCapLints) (rustflags : Option String)
    (st : Store) : Res Unit × Store :=
  let st1 := (delete ex_name st).2
  match crates with
  | .ok cs => define_ ex_name toolchains cs mode cap_lints rustflags st1
  | .err e => (.err e, st1)
  | .panic => (.panic, st1)

/-! ### Theorems -/

/-- Helper: on a two-element toolchain list `validate` reduces to its chain
of checks. -/
theorem validate_eq_of_pair (e : Experiment) (t0 t1 : Toolchain)
    (h : e.toolchains = [t0, t1]) :
    e.validate =
      (if t0 = t1 then .err (.msg "reusing the same toolchain isn't supported")
       else if e.rustflags.isSome && !t0.enable_rustflags && !t1.enable_rustflags then
         .err (.msg "rustflags are present but no toolchain is using them")
       else if e.rustflags.isNone && (t0.enable_rustflags || t1.enable_rustflags) then
         .err (.msg "a toolchain is enabling rustflags but none are set")
       else .ok ()) := by
  unfold Experiment.validate
  rw [h]
  simp only [List.getElem?_cons_zero, List.getElem?_cons_succ]

/-- C1: for every experiment record with exactly two toolchains, `validate`
rejects equal toolchains, rejects a record where exactly one of {flag
override present, some toolchain flag-aware} holds (the two Booleans
differ), and accepts a record with distinct toolchains where the flag
override is present iff some toolchain is flag-aware. -/
theorem validate_invariants (e : Experiment) (t0 t1 : Toolchain)
    (h : e.toolchains = [t0, t1]) :
    (t0 = t1 → ∃ m, e.validate = .err (.msg m)) ∧
    (e.rustflags.isSome ≠ (t0.enable_rustflags || t1.enable_rustflags) →
      ∃ m, e.validate = .err (.msg m)) ∧
    (t0 ≠ t1 → e.rustflags.isSome = (t0.enable_rustflags || t1.enable_rustflags) →
      e.validate = .ok ()) := by
  rw [validate_eq_of_pair e t0 t1 h]
  by_cases he : t0 = t1 <;>
    cases hrf : e.rustflags <;>
      cases hb0 : t0.enable_rustflags <;>
        cases hb1 : t1.enable_rustflags <;>
          simp [he]

/-- Witness for C1 at concrete records: a duplicated-toolchain record is
rejected, a flags-mismatch record is rejected, and a well-formed record
passes. -/
theorem validate_invariants_witness :
    (∃ m, (Experiment.mk "e" [] [⟨"stable", false⟩, ⟨"stable", false⟩]
        .BuildAndTest .Forbid none).validate = .err (.msg m)) ∧
    (∃ m, (Experiment.mk "e" [] [⟨"stable", false⟩, ⟨"beta", false⟩]
        .BuildAndTest .Forbid (some "-Zfoo")).validate = .err (.msg m)) ∧
    ((Experiment.mk "e" [] [⟨"stable", false⟩, ⟨"beta", true⟩]
        .BuildAndTest .Forbid (some "-Zfoo")).validate = .ok ()) :=
  ⟨(validate_invariants _ _ _ rfl).1 rfl,
   (validate_invariants _ _ _ rfl).2.1 (by decide),
   (validate_invariants _ _ _ rfl).2.2 (by decide) (by decide)⟩

/-- C9: `validate` looks only at the first two toolchains — a record with
fewer than two toolchains makes it panic (out-of-bounds index) rather than
return a typed error, and replacing everything after the first two toolchains
never changes its verdict. -/
theorem validate_first_two_only :
    (∀ e : Experiment, e.toolchains.length < 2 → e.validate = .panic) ∧
    (∀ (name : String) (crates : List Crate) (mode : ExMode) (cap : ExCapLints)
        (rf : Option String) (t0 t1 : Toolchain) (rest rest' : List Toolchain),
      (Experiment.mk name crates (t0 :: t1 :: rest) mode cap rf).validate =
        (Experiment.mk name crates (t0 :: t1 :: rest') mode cap rf).validate) := by
  constructor
  · intro e hlen
    unfold Experiment.validate
    match he : e.toolchains with
    | [] => rfl
    | [t] => rfl
    | t0 :: t1 :: rest =>
      rw [he] at hlen
      simp at hlen
      omega
  · intro name crates mode cap rf t0 t1 rest rest'
    unfold Experiment.validate
    simp only [List.getElem?_cons_zero, List.getElem?_cons_succ]

/-- Witness for C9: a one-toolchain record panics, and a duplicate toolchain
hidden at index 2 cannot cause rejection (the verdict equals that of the
two-toolchain record). -/
theorem validate_first_two_only_witness :
    ((Experiment.mk "e" [] [⟨"stable", false⟩] .BuildAndTest .Forbid none).validate
        = .panic) ∧
    ((Experiment.mk "e" [] [⟨"stable", false⟩, ⟨"beta", false⟩, ⟨"stable", false⟩]
        .BuildAndTest .Forbid none).validate =
      (Experiment.mk "e" [] [⟨"stable", false⟩, ⟨"beta", false⟩]
        .BuildAndTest .Forbid none).validate) :=
  ⟨validate_first_two_only.1 _ (by decide),
   validate_first_two_only.2 "e" [] .BuildAndTest .Forbid none
     ⟨"stable", false⟩ ⟨"beta", false⟩ [⟨"stable", false⟩] []⟩

/-- C2: demo selection either returns a list whose length equals the expected
count (curated names plus repo suffixes) or fails (the consistency
`assert_eq!`); with full corpus {a, b, c} and a curated name `d` absent from
it, selection fails rather than returning a partial set, and with curated
names {a, c} it returns exactly {a, c}. -/
theorem demo_list_consistency :
    (∀ (config : Config) (all_lists : List Crate),
      (∃ r, demo_list config all_lists = .ok r ∧
        r.length = config.demo_crates.dedup.length + config.github_repos.length) ∨
      demo_list config all_lists = .panic) ∧
    (demo_list ⟨["a", "d"], []⟩
        [.Registry ⟨"a", "1"⟩, .Registry ⟨"b", "1"⟩, .Registry ⟨"c", "1"⟩] = .panic) ∧
    (demo_list ⟨["a", "c"], []⟩
        [.Registry ⟨"a", "1"⟩, .Registry ⟨"b", "1"⟩, .Registry ⟨"c", "1"⟩] =
      .ok [.Registry ⟨"a", "1"⟩, .Registry ⟨"c", "1"⟩]) := by
  refine ⟨?_, by decide, by decide⟩
  intro config all_lists
  by_cases hlen : (demo_filter config.github_repos all_lists config.demo_crates.dedup).length
      = config.demo_crates.dedup.length + config.github_repos.length
  · exact .inl ⟨_, by simp [demo_list, hlen], hlen⟩
  · exact .inr (by simp [demo_list, hlen])

/-- Helper: the fetch loop always succeeds, appending to the log exactly the
error of each repo whose fetch fails, in order. -/
theorem fetch_loop_spec (gitFetch : GitHubRepo → Except String Unit)
    (rs : List GitHubRepo) (log : List String) :
    fetch_loop gitFetch rs log =
      (.ok (), log ++ rs.filterMap (fun r =>
        match gitFetch r with
        | .ok _ => none
        | .error e => some e)) := by
  induction rs generalizing log with
  | nil => simp [fetch_loop]
  | cons r rest ih =>
    cases hg : gitFetch r <;> simp [fetch_loop, hg, ih]

/-- C5: `fetch_repo_crates` returns success for every experiment and every
behavior of the git collaborator; each failing package's error is reported to
the log and iteration continues through the remaining packages (the log holds
exactly the errors of the failing repos, in corpus order). -/
theorem fetch_repo_crates_best_effort (ex : Experiment)
    (gitFetch : GitHubRepo → Except String Unit) :
    ex.fetch_repo_crates gitFetch =
      (.ok (), (ex.crates.filterMap Crate.github).filterMap (fun r =>
        match gitFetch r with
        | .ok _ => none
        | .error e => some e)) := by
  unfold Experiment.fetch_repo_crates
  rw [fetch_loop_spec]
  simp

/-- C6: `capture_shas` is fatal per call — a failing or empty/malformed git
query aborts with an error naming the mirror directory, a result-sink write
failure is wrapped naming the repo slug and propagated, and once a fatal
error occurs no later package is recorded. -/
theorem capture_shas_fatal
    (gq : FsPath → Except String (List String))
    (rs : GitHubRepo → String → Except String Unit) :
    (∀ (repo : GitHubRepo) (e : String), gq repo.mirror_dir = .error e →
      sha_step gq repo =
        .error ("unable to capture sha for " ++ path_str repo.mirror_dir ++ ": " ++ e)) ∧
    (∀ (repo : GitHubRepo) (lines : List String),
      gq repo.mirror_dir = .ok lines → lines.head?.getD "" = "" →
      sha_step gq repo =
        .error ("bogus output from git log for " ++ path_str repo.mirror_dir)) ∧
    (∀ (repo : GitHubRepo) (sha : String) (rest : List Crate) (e : String),
      sha_step gq repo = .ok sha → rs repo sha = .error e →
      capture_shas (Crate.GitHub repo :: rest) gq rs =
        (.error ("failed to record the sha of GitHub repo " ++ repo.slug ++ ": " ++ e),
          [(repo, sha)])) ∧
    (∀ (repo : GitHubRepo) (rest : List Crate) (e : String),
      sha_step gq repo = .error e →
      capture_shas (Crate.GitHub repo :: rest) gq rs = (.error e, [])) := by
  refine ⟨?_, ?_, ?_, ?_⟩
  · intro repo e hg
    unfold sha_step
    rw [hg]
  · intro repo lines hg hhead
    cases hl : lines.head? with
    | none => simp [sha_step, hg, hl]
    | some s =>
      rw [hl] at hhead
      simp only [Option.getD_some] at hhead
      simp [sha_step, hg, hl, hhead, show ("".isEmpty = true) from rfl]
  · intro repo sha rest e hstep hrec
    simp [capture_shas, hstep, hrec]
  · intro repo rest e hstep
    simp [capture_shas, hstep]

/-- Collaborator whose git query always fails. -/
def gq_fail : FsPath → Except String (List String) := fun _ => .error "boom"

/-- Collaborator whose git query returns no output lines. -/
def gq_empty : FsPath → Except String (List String) := fun _ => .ok []

/-- Collaborator whose git query resolves a sha. -/
def gq_sha : FsPath → Except String (List String) := fun _ => .ok ["abc123"]

/-- Result sink that accepts every write. -/
def rs_ok : GitHubRepo → String → Except String Unit := fun _ _ => .ok ()

/-- Result sink whose writes fail. -/
def rs_fail : GitHubRepo → String → Except String Unit := fun _ _ => .error "db down"

/-- Concrete source-repo package used by witnesses. -/
def repo_ex : GitHubRepo := ⟨"org", "repo"⟩

/-- Witness for C6 at concrete collaborators: a failing query, an empty
query, a failing sink write (with an unprocessed later package), and the
abort of the loop. -/
theorem capture_shas_fatal_witness :
    (sha_step gq_fail repo_ex =
      .error ("unable to capture sha for " ++ path_str repo_ex.mirror_dir ++ ": " ++ "boom")) ∧
    (sha_step gq_empty repo_ex =
      .error ("bogus output from git log for " ++ path_str repo_ex.mirror_dir)) ∧
    (capture_shas [Crate.GitHub repo_ex, Crate.GitHub ⟨"x", "y"⟩] gq_sha rs_fail =
      (.error ("failed to record the sha of GitHub repo " ++ repo_ex.slug ++ ": " ++ "db down"),
        [(repo_ex, "abc123")])) ∧
    (capture_shas [Crate.GitHub repo_ex, Crate.GitHub ⟨"x", "y"⟩] gq_fail rs_ok =
      (.error ("unable to capture sha for " ++ path_str repo_ex.mirror_dir ++ ": " ++ "boom"),
        [])) :=
  ⟨(capture_shas_fatal gq_fail rs_ok).1 repo_ex "boom" rfl,
   (capture_shas_fatal gq_empty rs_ok).2.1 repo_ex [] rfl rfl,
   (capture_shas_fatal gq_sha rs_fail).2.2.1 repo_ex "abc123" [Crate.GitHub ⟨"x", "y"⟩]
     "db down" rfl rfl,
   (capture_shas_fatal gq_fail rs_ok).2.2.2 repo_ex [Crate.GitHub ⟨"x", "y"⟩]
     ("unable to capture sha for " ++ path_str repo_ex.mirror_dir ++ ": " ++ "boom") rfl⟩

/-- Helper: the canonical source directory and the ephemeral work directory
of a (experiment, toolchain, package) triple are distinct paths. -/
theorem ex_source_ne_work_dir (ex : Experiment) (tc : Toolchain) (krate : Crate) :
    ex_crate_source ex tc krate ≠ crate_work_dir ex tc krate := by
  intro hEq
  unfold ex_crate_source crate_work_dir at hEq
  injection hEq with h1 h2
  injection h2 with h3 h4
  exact absurd h3 (by decide)

/-- C3: `with_work_crate` without source mutation removes the ephemeral work
directory on every exit path (action success or failure) before returning,
leaves the canonical source directory exactly as it was, and touches no other
directory. -/
theorem with_work_crate_cleanup {R : Type} (ex : Experiment) (tc : Toolchain)
    (krate : Crate) (f : String → Except String (R × String)) (fs : Fs)
    (content : String) (h : fs (ex_crate_source ex tc krate) = some content) :
    ((with_work_crate ex tc krate false f fs).2 (crate_work_dir ex tc krate) = none) ∧
    ((with_work_crate ex tc krate false f fs).2 (ex_crate_source ex tc krate) =
      fs (ex_crate_source ex tc krate)) ∧
    (∀ p : FsPath, (with_work_crate ex tc krate false f fs).2 p =
      if p = crate_work_dir ex tc krate then none else fs p) := by
  have hne := ex_source_ne_work_dir ex tc krate
  have key : ∀ p : FsPath, (with_work_crate ex tc krate false f fs).2 p =
      if p = crate_work_dir ex tc krate then none else fs p := by
    intro p
    by_cases hp : p = crate_work_dir ex tc krate <;>
      cases hf : f content <;>
        simp [with_work_crate, fs_set, h, hf, hp]
  refine ⟨?_, ?_, key⟩
  · rw [key]
    simp
  · rw [key, if_neg hne, h]

/-- Concrete experiment used by witnesses. -/
def ex_demo : Experiment :=
  ⟨"exp1", [.Registry ⟨"foo", "1.0"⟩], [⟨"stable", false⟩, ⟨"beta", false⟩],
    .BuildAndTest, .Forbid, none⟩

/-- Concrete toolchain used by witnesses. -/
def tc_demo : Toolchain := ⟨"stable", false⟩

/-- Concrete package used by witnesses. -/
def krate_demo : Crate := .Registry ⟨"foo", "1.0"⟩

/-- Concrete filesystem holding only the canonical source of `krate_demo`. -/
def fs_demo : Fs :=
  fun p => if p = ex_crate_source ex_demo tc_demo krate_demo then some "src-bytes" else none

/-- Concrete action that succeeds without changing its directory. -/
def f_demo : String → Except String (Unit × String) := fun c => .ok ((), c)

/-- Witness for C3 at a concrete experiment, package, action and filesystem:
after the call the work directory is gone and canonical source is intact. -/
theorem with_work_crate_cleanup_witness :
    ((with_work_crate ex_demo tc_demo krate_demo false f_demo fs_demo).2
        (crate_work_dir ex_demo tc_demo krate_demo) = none) ∧
    ((with_work_crate ex_demo tc_demo krate_demo false f_demo fs_demo).2
        (ex_crate_source ex_demo tc_demo krate_demo) =
      fs_demo (ex_crate_source ex_demo tc_demo krate_demo)) :=
  ⟨(with_work_crate_cleanup ex_demo tc_demo krate_demo f_demo fs_demo "src-bytes"
      (by simp [fs_demo])).1,
   (with_work_crate_cleanup ex_demo tc_demo krate_demo f_demo fs_demo "src-bytes"
      (by simp [fs_demo])).2.1⟩

/-- Helper: package serialization round-trips. -/
theorem crate_from_to (c : Crate) : Crate.from_json c.to_json = some c := by
  cases c with
  | Registry rc => rfl
  | GitHub r => rfl

/-- Helper: toolchain serialization round-trips. -/
theorem toolchain_from_to (tc : Toolchain) : Toolchain.from_json tc.to_json = some tc := by
  cases tc with
  | mk i b => rfl

/-- Helper: decoding a mapped list undoes the element encoding. -/
theorem decode_list_map {α : Type} (f : Json → Option α) (g : α → Json)
    (hfg : ∀ a, f (g a) = some a) (l : List α) :
    decode_list f (l.map g) = some l := by
  induction l with
  | nil => rfl
  | cons a as ih => simp [decode_list, hfg, ih]

/-- Helper: mode serialization round-trips. -/
theorem mode_from_to (m : ExMode) : ExMode.from_str m.to_str = some m := by
  cases m <;> rfl

/-- Helper: lint-policy serialization round-trips. -/
theorem cap_lints_from_to (c : ExCapLints) : ExCapLints.from_str c.to_str = some c := by
  cases c <;> rfl

/-- Helper: flag-override serialization round-trips. -/
theorem opt_str_from_to (o : Option String) :
    opt_str_from_json (opt_str_to_json o) = some o := by
  cases o <;> rfl

/-- Helper: serialization of a whole experiment record round-trips. -/
theorem experiment_from_to (ex : Experiment) :
    Experiment.from_json ex.to_json = some ex := by
  cases ex with
  | mk name crates tcs mode cap rf =>
    simp [Experiment.to_json, Experiment.from_json, List.lookup,
      decode_list_map Crate.from_json Crate.to_json crate_from_to,
      decode_list_map Toolchain.from_json Toolchain.to_json toolchain_from_to,
      mode_from_to, cap_lints_from_to, opt_str_from_to]

/-- C4: for every experiment definition that passes `validate`, `define_`
persists successfully and a `load` of the same name returns a record equal to
the one defined — serialization followed by deserialization round-trips the
record. -/
theorem define_load_round_trip (ex_name : String) (toolchains : List Toolchain)
    (crates : List Crate) (mode : ExMode) (cap_lints : ExCapLints)
    (rustflags : Option String) (st : Store)
    (h : (Experiment.mk ex_name crates toolchains mode cap_lints rustflags).validate
      = .ok ()) :
    (define_ ex_name toolchains crates mode cap_lints rustflags st).1 = .ok () ∧
    Experiment.load ex_name (define_ ex_name toolchains crates mode cap_lints rustflags st).2
      = .ok (Experiment.mk ex_name crates toolchains mode cap_lints rustflags) := by
  constructor
  · simp [define_, h]
  · simp [define_, h, Experiment.load, store_set, experiment_from_to]

/-- Witness for C4: the round-trip at a concrete valid experiment over the
empty store. -/
theorem define_load_round_trip_witness :
    (define_ "exp1" [⟨"stable", false⟩, ⟨"beta", false⟩] [.Registry ⟨"foo", "1.0"⟩]
      .BuildAndTest .Forbid none (fun _ => none)).1 = .ok () ∧
    Experiment.load "exp1"
      (define_ "exp1" [⟨"stable", false⟩, ⟨"beta", false⟩] [.Registry ⟨"foo", "1.0"⟩]
        .BuildAndTest .Forbid none (fun _ => none)).2 =
      .ok (Experiment.mk "exp1" [.Registry ⟨"foo", "1.0"⟩]
        [⟨"stable", false⟩, ⟨"beta", false⟩] .BuildAndTest .Forbid none) :=
  define_load_round_trip "exp1" [⟨"stable", false⟩, ⟨"beta", false⟩]
    [.Registry ⟨"foo", "1.0"⟩] .BuildAndTest .Forbid none (fun _ => none) (by decide)

/-- C8: `delete` succeeds on every store (in particular when no experiment of
that name exists), it removes the persisted record, it is idempotent, and a
`load` of the name after a `delete` fails with the not-found error. -/
theorem delete_idempotent_load (ex_name : String) (st : Store) :
    (delete ex_name st).1 = .ok () ∧
    ((delete ex_name st).2 ex_name = none) ∧
    (delete ex_name (delete ex_name st).2 = delete ex_name st) ∧
    Experiment.load ex_name (delete ex_name st).2 = .err .notFound := by
  have h2 : (delete ex_name st).2 ex_name = none := by
    cases hst : st ex_name <;> simp [delete, hst, store_set]
  refine ⟨?_, h2, ?_, ?_⟩
  · cases hst : st ex_name <;> simp [delete, hst]
  · have hfst : (delete ex_name st).1 = .ok () := by
      cases hst : st ex_name <;> simp [delete, hst]
    have hnone : ∀ s : Store, s ex_name = none → delete ex_name s = (.ok (), s) := by
      intro s hs
      unfold delete
      rw [hs]
    rw [hnone _ h2, Prod.ext_iff]
    exact ⟨hfst.symm, rfl⟩
  · unfold Experiment.load
    rw [h2]

/-- C10: `define` deletes the existing same-named experiment before corpus
selection and validation, so whenever it fails — the corpus selection
errored or panicked, or the new record failed validation — the persisted
record of that name is already gone and a subsequent `load` fails with the
not-found error. -/
theorem define_not_atomic (ex_name : String) (crates : Res (List Crate))
    (toolchains : List Toolchain) (mode : ExMode) (cap_lints : ExCapLints)
    (rustflags : Option String) (st : Store)
    (h : (define ex_name crates toolchains mode cap_lints rustflags st).1 ≠ .ok ()) :
    ((define ex_name crates toolchains mode cap_lints rustflags st).2 ex_name = none) ∧
    Experiment.load ex_name
      (define ex_name crates toolchains mode cap_lints rustflags st).2 = .err .notFound := by
  have hdel : (delete ex_name st).2 ex_name = none :=
    (delete_idempotent_load ex_name st).2.1
  have key : (define ex_name crates toolchains mode cap_lints rustflags st).2 ex_name
      = none := by
    cases hcr : crates with
    | ok cs =>
      cases hve : (Experiment.mk ex_name cs toolchains mode cap_lints rustflags).validate with
      | ok u =>
        exfalso
        apply h
        rw [hcr]
        cases u
        simp [define, define_, hve]
      | err e => simp [define, define_, hve, hdel]
      | panic => simp [define, define_, hve, hdel]
    | err e => simp [define, hdel]
    | panic => simp [define, hdel]
  refine ⟨key, ?_⟩
  unfold Experiment.load
  rw [key]

/-- Witness for C10: a `define` whose corpus selection fails over a store that
holds a record of that name leaves the name deleted, and loading it reports
not-found. -/
theorem define_not_atomic_witness :
    ((define "exp1" (.err (.msg "corpus read failed")) [⟨"stable", false⟩, ⟨"beta", false⟩]
        .BuildAndTest .Forbid none (fun _ => some .null)).2 "exp1" = none) ∧
    Experiment.load "exp1"
      (define "exp1" (.err (.msg "corpus read failed")) [⟨"stable", false⟩, ⟨"beta", false⟩]
        .BuildAndTest .Forbid none (fun _ => some .null)).2 = .err .notFound :=
  define_not_atomic "exp1" (.err (.msg "corpus read failed"))
    [⟨"stable", false⟩, ⟨"beta", false⟩] .BuildAndTest .Forbid none (fun _ => some .null)
    (by simp [define, define_, delete, store_set])

/-- Helper: the package comparison is transitive. -/
theorem crate_le_trans (a b c : Crate) (h1 : crate_le a b = true)
    (h2 : crate_le b c = true) : crate_le a c = true := by
  simp only [crate_le, decide_eq_true_eq] at *
  exact le_trans h1 h2

/-- Helper: the package comparison is total. -/
theorem crate_le_total (a b : Crate) : (crate_le a b || crate_le b a) = true := by
  simp only [crate_le, Bool.or_eq_true, decide_eq_true_eq]
  exact le_total _ _

/-- Concrete registry package `a`. -/
def crate_a : Crate := .Registry ⟨"a", "1"⟩

/-- Concrete registry package `b`. -/
def crate_b : Crate := .Registry ⟨"b", "1"⟩

/-- Counterexample to C7 as stated: a corpus of 20 entries (20 copies of one
package, allowed since the claim quantifies over every corpus) on which
`small_random` returns a 20-element list that is not distinct (not `Nodup`),
under the identity shuffle. -/
theorem small_random_distinct_cex :
    20 ≤ (List.replicate 20 crate_a).length ∧
    (List.replicate 20 crate_a).Perm (List.replicate 20 crate_a) ∧
    small_random (List.replicate 20 crate_a) = .ok (List.replicate 20 crate_a) ∧
    ¬ (List.replicate 20 crate_a).Nodup := by
  refine ⟨by simp, List.Perm.refl _, ?_, by simp [List.nodup_replicate]⟩
  unfold small_random
  congr 1
  have ht : (List.replicate 20 crate_a).take 20 = List.replicate 20 crate_a := by simp
  rw [ht]
  exact List.perm_replicate.mp (List.mergeSort_perm _ _)

/-- C7 (amended): for every corpus and every shuffle of it, `small_random`
returns a list of length `min 20 |corpus|` (exactly 20 when the corpus has at
least 20 entries), sorted, drawn from the corpus without replacement
(a sub-permutation of the corpus); it returns all corpus entries when the
corpus has at most 20, and the entries are distinct whenever the corpus
itself has no duplicate entries — but not, as the claim states, for every
corpus. -/
theorem small_random_spec (corpus shuffled : List Crate) (h : shuffled.Perm corpus) :
    ∃ r, small_random shuffled = .ok r ∧
      r.length = min 20 corpus.length ∧
      List.Pairwise (fun a b => crate_le a b = true) r ∧
      r.Subperm corpus ∧
      (corpus.length ≤ 20 → r.Perm corpus) ∧
      (corpus.Nodup → r.Nodup) := by
  refine ⟨(shuffled.take 20).mergeSort crate_le, rfl, ?_, ?_, ?_, ?_, ?_⟩
  · simp [List.length_mergeSort, List.length_take, h.length_eq]
  · exact List.sorted_mergeSort crate_le_trans crate_le_total _
  · exact ((List.mergeSort_perm _ _).subperm).trans
      ((List.take_sublist _ _).subperm.trans h.subperm)
  · intro hle
    have hsl : shuffled.length ≤ 20 := by rw [h.length_eq]; exact hle
    rw [List.take_of_length_le hsl]
    exact (List.mergeSort_perm _ _).trans h
  · intro hnd
    have h1 : shuffled.Nodup := (h.nodup_iff).mpr hnd
    have h2 : (shuffled.take 20).Nodup := List.Nodup.sublist (List.take_sublist _ _) h1
    exact ((List.mergeSort_perm _ _).nodup_iff).mpr h2

/-- Witness for C7 at a concrete two-element corpus and a nontrivial shuffle. -/
theorem small_random_spec_witness :
    ∃ r, small_random [crate_b, crate_a] = .ok r ∧
      r.length = min 20 ([crate_a, crate_b] : List Crate).length ∧
      List.Pairwise (fun a b => crate_le a b = true) r ∧
      r.Subperm [crate_a, crate_b] ∧
      (([crate_a, crate_b] : List Crate).length ≤ 20 → r.Perm [crate_a, crate_b]) ∧
      (([crate_a, crate_b] : List Crate).Nodup → r.Nodup) :=
  small_random_spec [crate_a, crate_b] [crate_b, crate_a] (by decide)

end Crater
